import Mathlib

/-!
Shallow embedding of the VPP aggregation platform control plane:
the BESS safety manager (`safety_interlocks.py`), the frequency droop
controller (`frequency_droop.py`), and the campus dispatch strategies
(`campus_controller/main.py`).  Python floats are modelled as exact
rationals (`ℚ`); stateful methods are modelled as functions from an
explicit state to a pair of new state and result.  Wall-clock
timestamps are modelled as rational numbers of seconds where they
influence control flow (the rate-limit checks); violation records drop
the timestamp field, which never influences control decisions.
-/

namespace VPP

/-- `SafetyLevel` enum from `safety_interlocks.py`. -/
inductive SafetyLevel
  | normal
  | info
  | warning
  | critical
  | emergency
deriving DecidableEq, Repr

/-- `SafetyAction` enum from `safety_interlocks.py`. -/
inductive SafetyAction
  | none
  | log
  | reducePower
  | stop
  | emergencyShutdown
deriving DecidableEq, Repr

instance : Fintype SafetyAction :=
  ⟨⟨{SafetyAction.none, SafetyAction.log, SafetyAction.reducePower,
     SafetyAction.stop, SafetyAction.emergencyShutdown}, by decide⟩,
   by intro a; cases a <;> decide⟩

/-- `SafetyLimits` dataclass with its default field values. -/
structure SafetyLimits where
  min_cell_voltage : ℚ := 2.8
  max_cell_voltage : ℚ := 4.2
  min_pack_voltage : ℚ := 44.8
  max_pack_voltage : ℚ := 67.2
  max_charge_current : ℚ := 100
  max_discharge_current : ℚ := 100
  min_temperature : ℚ := -10
  max_temperature : ℚ := 55
  critical_temperature : ℚ := 60
  min_soc : ℚ := 10
  max_soc : ℚ := 95
  max_soc_change_rate : ℚ := 1
  max_power_ramp_rate : ℚ := 10
  max_cell_voltage_delta : ℚ := 0.1
  min_soh : ℚ := 70
deriving DecidableEq, Repr

/-- Default-constructed `SafetyLimits()`. -/
def defaultLimits : SafetyLimits := {}

/-- `SafetyViolation` record (timestamp dropped; it never affects control). -/
structure SafetyViolation where
  level : SafetyLevel
  category : String
  value : Option ℚ := Option.none
  limit : Option ℚ := Option.none
  action : SafetyAction := SafetyAction.none
deriving DecidableEq, Repr

/-- Mutable state of a `SafetyManager` instance. -/
structure SafetyManagerState where
  limits : SafetyLimits
  violations : List SafetyViolation
  is_emergency_stopped : Bool
  power_reduction_factor : ℚ
  last_soc : Option ℚ
  last_soc_time : Option ℚ
  last_power : Option ℚ
  last_power_time : Option ℚ
deriving DecidableEq, Repr

/-- `SafetyManager.__init__`. -/
def SafetyManager_init (limits : SafetyLimits) : SafetyManagerState :=
  { limits := limits
    violations := []
    is_emergency_stopped := false
    power_reduction_factor := 1
    last_soc := Option.none
    last_soc_time := Option.none
    last_power := Option.none
    last_power_time := Option.none }

/-- One entry of the `cells` list in a telemetry dict. -/
structure Cell where
  voltage : Option ℚ := Option.none
  temperature : Option ℚ := Option.none
deriving DecidableEq, Repr

/-- The `alarms` sub-dict of a telemetry dict (BMS fault flags). -/
structure Alarms where
  overvoltage_fault : Bool := false
  overcurrent_fault : Bool := false
  overtemperature_fault : Bool := false
  short_circuit_fault : Bool := false
deriving DecidableEq, Repr

/-- A telemetry dict as read by `check_safety`; a `none` field models a
missing dictionary key. -/
structure Telemetry where
  soc : Option ℚ := Option.none
  soh : Option ℚ := Option.none
  voltage : Option ℚ := Option.none
  current : Option ℚ := Option.none
  temperature : Option ℚ := Option.none
  power_kw : Option ℚ := Option.none
  cells : List Cell := []
  alarms : Alarms := {}
deriving DecidableEq, Repr

/-- `SafetyManager._check_cell_voltages`. -/
def check_cell_voltages (L : SafetyLimits) (cells : List Cell) :
    List SafetyViolation :=
  let voltages := cells.map (fun c => c.voltage.getD 0)
  match voltages with
  | [] => []
  | v :: vs =>
    let min_voltage := vs.foldl min v
    let max_voltage := vs.foldl max v
    let voltage_delta := max_voltage - min_voltage
    (if min_voltage < L.min_cell_voltage then
      [{ level := SafetyLevel.critical, category := "cell_undervoltage",
         value := some min_voltage, limit := some L.min_cell_voltage,
         action := SafetyAction.stop }] else [])
    ++ (if max_voltage > L.max_cell_voltage then
      [{ level := SafetyLevel.critical, category := "cell_overvoltage",
         value := some max_voltage, limit := some L.max_cell_voltage,
         action := SafetyAction.stop }] else [])
    ++ (if voltage_delta > L.max_cell_voltage_delta then
      [{ level := SafetyLevel.warning, category := "cell_imbalance",
         value := some voltage_delta, limit := some L.max_cell_voltage_delta,
         action := SafetyAction.reducePower }] else [])

/-- `SafetyManager._check_pack_voltage`. -/
def check_pack_voltage (L : SafetyLimits) (pack_voltage : ℚ) :
    List SafetyViolation :=
  (if pack_voltage < L.min_pack_voltage then
    [{ level := SafetyLevel.critical, category := "pack_undervoltage",
       value := some pack_voltage, limit := some L.min_pack_voltage,
       action := SafetyAction.stop }] else [])
  ++ (if pack_voltage > L.max_pack_voltage then
    [{ level := SafetyLevel.critical, category := "pack_overvoltage",
       value := some pack_voltage, limit := some L.max_pack_voltage,
       action := SafetyAction.stop }] else [])

/-- `SafetyManager._check_current`. -/
def check_current (L : SafetyLimits) (pack_current : ℚ) :
    List SafetyViolation :=
  (if pack_current > L.max_charge_current then
    [{ level := SafetyLevel.critical, category := "overcurrent_charge",
       value := some pack_current, limit := some L.max_charge_current,
       action := SafetyAction.reducePower }] else [])
  ++ (if |pack_current| > L.max_discharge_current ∧ pack_current < 0 then
    [{ level := SafetyLevel.critical, category := "overcurrent_discharge",
       value := some |pack_current|, limit := some L.max_discharge_current,
       action := SafetyAction.reducePower }] else [])

/-- `SafetyManager._check_temperature`. -/
def check_temperature (L : SafetyLimits) (pack_temperature : ℚ)
    (cells : List Cell) : List SafetyViolation :=
  (if pack_temperature > L.critical_temperature then
    [{ level := SafetyLevel.emergency, category := "critical_temperature",
       value := some pack_temperature, limit := some L.critical_temperature,
       action := SafetyAction.emergencyShutdown }]
  else if pack_temperature > L.max_temperature then
    [{ level := SafetyLevel.critical, category := "overtemperature",
       value := some pack_temperature, limit := some L.max_temperature,
       action := SafetyAction.reducePower }]
  else if pack_temperature < L.min_temperature then
    [{ level := SafetyLevel.warning, category := "undertemperature",
       value := some pack_temperature, limit := some L.min_temperature,
       action := SafetyAction.reducePower }]
  else [])
  ++ (if cells.isEmpty then []
    else
      let cell_temps := (cells.map Cell.temperature).reduceOption
      match cell_temps with
      | [] => []
      | t :: ts =>
        let max_temp := ts.foldl max t
        if max_temp > L.critical_temperature then
          [{ level := SafetyLevel.emergency,
             category := "cell_critical_temperature",
             value := some max_temp, limit := some L.critical_temperature,
             action := SafetyAction.emergencyShutdown }]
        else [])

/-- `SafetyManager._check_soc`. -/
def check_soc (L : SafetyLimits) (soc : ℚ) : List SafetyViolation :=
  (if soc < L.min_soc then
    [{ level := SafetyLevel.warning, category := "low_soc",
       value := some soc, limit := some L.min_soc,
       action := SafetyAction.reducePower }] else [])
  ++ (if soc > L.max_soc then
    [{ level := SafetyLevel.warning, category := "high_soc",
       value := some soc, limit := some L.max_soc,
       action := SafetyAction.reducePower }] else [])

/-- `SafetyManager._check_soh`. -/
def check_soh (L : SafetyLimits) (soh : ℚ) : List SafetyViolation :=
  if soh < L.min_soh then
    [{ level := SafetyLevel.warning, category := "low_soh",
       value := some soh, limit := some L.min_soh,
       action := SafetyAction.log }] else []

/-- `SafetyManager._check_rate_limits`: emits rate violations and updates
the `last_soc` / `last_power` tracking fields.  `now` is the current
wall-clock time in seconds. -/
def check_rate_limits (s : SafetyManagerState) (soc power_kw now : ℚ) :
    List SafetyViolation × SafetyManagerState :=
  let socViolations :=
    match s.last_soc, s.last_soc_time with
    | some last_soc, some last_soc_time =>
      let time_delta := (now - last_soc_time) / 60
      if time_delta > 0 then
        let soc_rate := |soc - last_soc| / time_delta
        if soc_rate > s.limits.max_soc_change_rate then
          [{ level := SafetyLevel.warning, category := "soc_rate_limit",
             value := some soc_rate, limit := some s.limits.max_soc_change_rate,
             action := SafetyAction.reducePower }]
        else []
      else []
    | _, _ => []
  let powerViolations :=
    match s.last_power, s.last_power_time with
    | some last_power, some last_power_time =>
      let time_delta := now - last_power_time
      if time_delta > 0 then
        let power_ramp := |power_kw - last_power| / time_delta
        if power_ramp > s.limits.max_power_ramp_rate then
          [{ level := SafetyLevel.warning, category := "power_ramp_limit",
             value := some power_ramp, limit := some s.limits.max_power_ramp_rate,
             action := SafetyAction.log }]
        else []
      else []
    | _, _ => []
  (socViolations ++ powerViolations,
   { s with last_soc := some soc, last_soc_time := some now,
            last_power := some power_kw, last_power_time := some now })

/-- `SafetyManager._check_bms_alarms`. -/
def check_bms_alarms (alarms : Alarms) : List SafetyViolation :=
  (if alarms.overvoltage_fault then
    [{ level := SafetyLevel.emergency, category := "bms_overvoltage_fault",
       action := SafetyAction.emergencyShutdown }] else [])
  ++ (if alarms.overcurrent_fault then
    [{ level := SafetyLevel.emergency, category := "bms_overcurrent_fault",
       action := SafetyAction.emergencyShutdown }] else [])
  ++ (if alarms.overtemperature_fault then
    [{ level := SafetyLevel.emergency, category := "bms_overtemperature_fault",
       action := SafetyAction.emergencyShutdown }] else [])
  ++ (if alarms.short_circuit_fault then
    [{ level := SafetyLevel.emergency, category := "bms_short_circuit_fault",
       action := SafetyAction.emergencyShutdown }] else [])

/-- `SafetyManager.emergency_shutdown`. -/
def emergency_shutdown (s : SafetyManagerState) : SafetyManagerState :=
  { s with is_emergency_stopped := true, power_reduction_factor := 0 }

/-- `SafetyManager.stop`. -/
def sm_stop (s : SafetyManagerState) : SafetyManagerState :=
  { s with power_reduction_factor := 0 }

/-- `SafetyManager.reduce_power`. -/
def reduce_power (s : SafetyManagerState) (factor : ℚ) : SafetyManagerState :=
  { s with power_reduction_factor := min s.power_reduction_factor factor }

/-- The accumulator step of the `max_action` loop in
`SafetyManager._handle_violations` (the `break` on emergency shutdown is
equivalent to this fold because the first branch is absorbing). -/
def handle_step (acc : SafetyAction) (a : SafetyAction) : SafetyAction :=
  if a = SafetyAction.emergencyShutdown then SafetyAction.emergencyShutdown
  else if a = SafetyAction.stop ∧ acc ≠ SafetyAction.emergencyShutdown then
    SafetyAction.stop
  else if a = SafetyAction.reducePower ∧
      acc ≠ SafetyAction.emergencyShutdown ∧ acc ≠ SafetyAction.stop then
    SafetyAction.reducePower
  else acc

/-- The `max_action` computed by `SafetyManager._handle_violations`. -/
def code_max_action (violations : List SafetyViolation) : SafetyAction :=
  violations.foldl (fun acc v => handle_step acc v.action) SafetyAction.none

/-- `SafetyManager._handle_violations` (logging side effects dropped). -/
def handle_violations (s : SafetyManagerState)
    (violations : List SafetyViolation) : SafetyManagerState :=
  if violations = [] then s
  else
    match code_max_action violations with
    | SafetyAction.emergencyShutdown => emergency_shutdown s
    | SafetyAction.stop => sm_stop s
    | SafetyAction.reducePower => reduce_power s (1/2)
    | _ => s

/-- The violation-collection phase of `SafetyManager.check_safety`
(steps 1-8), including appending to the stored violation history and the
tracking-state update done by `_check_rate_limits`. -/
def collect_violations (s : SafetyManagerState) (t : Telemetry) (now : ℚ) :
    List SafetyViolation × SafetyManagerState :=
  let soc := t.soc.getD 0
  let soh := t.soh.getD 100
  let pack_voltage := t.voltage.getD 0
  let pack_current := t.current.getD 0
  let temperature := t.temperature.getD 25
  let power_kw := t.power_kw.getD 0
  let v1 := if t.cells.isEmpty then [] else check_cell_voltages s.limits t.cells
  let v2 := check_pack_voltage s.limits pack_voltage
  let v3 := check_current s.limits pack_current
  let v4 := check_temperature s.limits temperature t.cells
  let v5 := check_soc s.limits soc
  let v6 := check_soh s.limits soh
  let rate := check_rate_limits s soc power_kw now
  let v8 := if t.alarms = ({} : Alarms) then [] else check_bms_alarms t.alarms
  let violations := v1 ++ v2 ++ v3 ++ v4 ++ v5 ++ v6 ++ rate.1 ++ v8
  (violations, { rate.2 with violations := rate.2.violations ++ violations })

/-- `SafetyManager.check_safety`: collect violations, store them, take the
aggregate action, and return the violation list. -/
def check_safety (s : SafetyManagerState) (t : Telemetry) (now : ℚ) :
    SafetyManagerState × List SafetyViolation :=
  let c := collect_violations s t now
  (handle_violations c.2 c.1, c.1)

/-- `SafetyManager.apply_safety_limits`. -/
def apply_safety_limits (s : SafetyManagerState) (requested_power_kw : ℚ) : ℚ :=
  if s.is_emergency_stopped then 0
  else requested_power_kw * s.power_reduction_factor

/-- `SafetyManager.reset`: returns the new state and the boolean result. -/
def sm_reset (s : SafetyManagerState) : SafetyManagerState × Bool :=
  if s.is_emergency_stopped then (s, false)
  else ({ s with power_reduction_factor := 1 }, true)

/-! ## Frequency droop controller (`frequency_droop.py`) -/

/-- `ResponseMode` enum. -/
inductive ResponseMode
  | off
  | primary
  | secondary
  | tertiary
deriving DecidableEq, Repr

/-- `DroopSettings` dataclass with its default field values. -/
structure DroopSettings where
  droop_percent : ℚ := 5
  deadband_low : ℚ := 49.90
  deadband_high : ℚ := 50.05
  max_power_kw : ℚ := 1000
  ramp_rate_kw_per_s : ℚ := 50
  response_mode : ResponseMode := ResponseMode.primary
  enable_damping : Bool := true
  damping_gain : ℚ := 0.1
deriving DecidableEq, Repr

/-- The nominal frequency set in `FrequencyDroopController.__init__`. -/
def f_nominal : ℚ := 50

/-- Mutable state of a `FrequencyDroopController`. -/
structure DroopState where
  settings : DroopSettings
  enabled : Bool
  current_power_setpoint : ℚ
  last_frequency : ℚ
deriving DecidableEq, Repr

/-- `FrequencyDroopController.__init__`. -/
def droop_init (settings : DroopSettings) : DroopState :=
  { settings := settings
    enabled := false
    current_power_setpoint := 0
    last_frequency := 50 }

/-- The unclamped power response of
`FrequencyDroopController.calculate_power_response`: the droop law plus
the optional ROCOF damping term. -/
def droop_raw (settings : DroopSettings) (frequency : ℚ)
    (rocof : Option ℚ) : ℚ :=
  let freq_deviation := frequency - f_nominal
  let droop_fraction := settings.droop_percent / 100
  let p0 := -(settings.max_power_kw / droop_fraction) *
    (freq_deviation / f_nominal)
  match rocof with
  | some rc =>
    if settings.enable_damping then
      p0 + (-settings.damping_gain * rc * settings.max_power_kw)
    else p0
  | _ => p0

/-- The clamp to `±max_power_kw` followed by the ramp limiter against
the previous stored setpoint, from
`FrequencyDroopController.calculate_power_response`. -/
def clamp_and_ramp (settings : DroopSettings)
    (current_power_setpoint p1 : ℚ) : ℚ :=
  let p2 := max (-settings.max_power_kw) (min settings.max_power_kw p1)
  let max_ramp := settings.ramp_rate_kw_per_s
  let power_delta := p2 - current_power_setpoint
  if |power_delta| > max_ramp then
    if power_delta > 0 then current_power_setpoint + max_ramp
    else current_power_setpoint - max_ramp
  else p2

/-- The arithmetic of `FrequencyDroopController.calculate_power_response`
past the enable/mode/deadband guards. -/
def droop_response_core (settings : DroopSettings)
    (current_power_setpoint frequency : ℚ) (rocof : Option ℚ) : ℚ :=
  clamp_and_ramp settings current_power_setpoint
    (droop_raw settings frequency rocof)

/-- `FrequencyDroopController.calculate_power_response`: returns the new
state and the returned power setpoint (kW). -/
def calculate_power_response (s : DroopState) (frequency : ℚ)
    (rocof : Option ℚ) : DroopState × ℚ :=
  if s.enabled = false then (s, 0)
  else if s.settings.response_mode = ResponseMode.off then (s, 0)
  else if s.settings.deadband_low ≤ frequency ∧
      frequency ≤ s.settings.deadband_high then (s, 0)
  else
    let p3 := droop_response_core s.settings s.current_power_setpoint
      frequency rocof
    ({ s with current_power_setpoint := p3, last_frequency := frequency }, p3)

/-- `FrequencyDroopController.enable`. -/
def droop_enable (s : DroopState) : DroopState := { s with enabled := true }

/-- `FrequencyDroopController.disable`. -/
def droop_disable (s : DroopState) : DroopState :=
  { s with enabled := false, current_power_setpoint := 0 }

/-- Mutable state of an `AdaptiveDroopController` (inherits the base
controller state and adds tracked SOC and temperature). -/
structure AdaptiveDroopState where
  base : DroopState
  soc : ℚ
  temperature : ℚ
deriving DecidableEq, Repr

/-- `AdaptiveDroopController.__init__`. -/
def adaptive_init (settings : DroopSettings) : AdaptiveDroopState :=
  { base := droop_init settings, soc := 80, temperature := 25 }

/-- `AdaptiveDroopController._get_soc_factor`. -/
def get_soc_factor (soc frequency : ℚ) : ℚ :=
  let freq_deviation := frequency - f_nominal
  if freq_deviation < 0 then
    if soc > 80 then 1
    else if soc > 50 then 0.7
    else if soc > 20 then 0.3
    else 0
  else
    if soc < 20 then 1
    else if soc < 50 then 0.7
    else if soc < 80 then 0.3
    else 0

/-- `AdaptiveDroopController._get_temperature_factor`. -/
def get_temperature_factor (temperature : ℚ) : ℚ :=
  if 15 ≤ temperature ∧ temperature ≤ 35 then 1
  else if temperature < 15 then max 0.5 (1 - (15 - temperature) * 0.02)
  else if temperature < 50 then max 0.5 (1 - (temperature - 35) * 0.02)
  else 0.2

/-- `AdaptiveDroopController.calculate_power_response_adaptive`: updates
the tracked SOC / temperature when given, runs the base response (which
updates the ramp state), and scales the result by the SOC and
temperature factors. -/
def calculate_power_response_adaptive (s : AdaptiveDroopState)
    (frequency : ℚ) (rocof soc temperature : Option ℚ) :
    AdaptiveDroopState × ℚ :=
  let soc1 := soc.getD s.soc
  let temp1 := temperature.getD s.temperature
  let r := calculate_power_response s.base frequency rocof
  let soc_factor := get_soc_factor soc1 frequency
  let temp_factor := get_temperature_factor temp1
  ({ base := r.1, soc := soc1, temperature := temp1 },
   r.2 * soc_factor * temp_factor)

/-! ## Campus dispatch (`campus_controller/main.py`) -/

/-- `NodeStatus` enum from `location_schema.py`. -/
inductive NodeStatus
  | online
  | offline
  | fault
  | maintenance
  | standby
deriving DecidableEq, Repr

/-- `NodeCapacity` model (fields not read by dispatch kept for shape). -/
structure NodeCapacity where
  rated_power_kw : ℚ
  energy_capacity_kwh : ℚ := 0
  available_power_kw : ℚ := 0
  available_energy_kwh : ℚ := 0
deriving DecidableEq, Repr

/-- The fields of a `Node` read by the campus dispatch path. -/
structure Node where
  node_id : String
  status : NodeStatus := NodeStatus.offline
  capacity : NodeCapacity
  soc : Option ℚ := Option.none
deriving DecidableEq, Repr

/-- Python truthiness of `n.soc or default`: `None` and `0.0` both fall
back to the default. -/
def socOr (o : Option ℚ) (default : ℚ) : ℚ :=
  match o with
  | Option.none => default
  | some v => if v = 0 then default else v

/-- `CampusController._proportional_dispatch`.  A Python dict built by
inserting each node once is modelled as an association list in node
order. -/
def proportional_dispatch (total_power_kw : ℚ) (nodes : List Node) :
    List (String × ℚ) :=
  let total_capacity := (nodes.map (fun n => n.capacity.rated_power_kw)).sum
  nodes.map (fun n =>
    (n.node_id, total_power_kw * (n.capacity.rated_power_kw / total_capacity)))

/-- `CampusController._balanced_dispatch`.  The `deviations[node.node_id]`
dict lookup is modelled by recomputing the deviation of the node, which
coincides with the dict for distinct node ids (node ids are unique by the
data model). -/
def balanced_dispatch (total_power_kw : ℚ) (nodes : List Node) :
    List (String × ℚ) :=
  let socs := nodes.map (fun n => socOr n.soc 50)
  let avg_soc := socs.sum / (socs.length : ℚ)
  let total_deviation := (socs.map (fun soc => |soc - avg_soc|)).sum
  nodes.map (fun n =>
    let proportion :=
      if total_deviation = 0 then 1 / (nodes.length : ℚ)
      else
        let deviation := socOr n.soc 50 - avg_soc
        if total_power_kw < 0 then
          if deviation > 0 then deviation / total_deviation else 0
        else
          if deviation < 0 then -deviation / total_deviation else 0
    (n.node_id, total_power_kw * proportion))

/-- The allocation loop of `CampusController._priority_dispatch`,
including the early `break` once the remaining magnitude drops below
0.1 kW. -/
def priority_alloc (total_power_kw : ℚ) :
    List Node → ℚ → List (String × ℚ)
  | [], _ => []
  | n :: rest, remaining_power =>
    let max_node_power := n.capacity.rated_power_kw
    let allocated0 := min |remaining_power| max_node_power
    let allocated := if total_power_kw ≥ 0 then allocated0 else -allocated0
    let remaining1 := remaining_power - allocated
    (n.node_id, allocated) ::
      (if |remaining1| < 0.1 then []
       else priority_alloc total_power_kw rest remaining1)

/-- `CampusController._priority_dispatch`: stable sort by SOC (descending
for discharge with `soc or 0.0`, ascending for charge with
`soc or 100.0`), greedy allocation, then zero-fill of the untouched
nodes in sorted order. -/
def priority_dispatch (total_power_kw : ℚ) (nodes : List Node) :
    List (String × ℚ) :=
  let sorted_nodes :=
    if total_power_kw < 0 then
      nodes.mergeSort (fun a b => socOr b.soc 0 ≤ socOr a.soc 0)
    else
      nodes.mergeSort (fun a b => socOr a.soc 100 ≤ socOr b.soc 100)
  let alloc := priority_alloc total_power_kw sorted_nodes total_power_kw
  alloc ++ (sorted_nodes.drop alloc.length).map (fun n => (n.node_id, 0))

/-- `CampusController.dispatch_power`: the setpoint-selection phase (the
HTTP fan-out of the chosen setpoints is I/O and is not part of the
computed map).  An absent or empty (`falsy`) manual map falls through to
the named strategy, mirroring `if dispatch.node_setpoints:`. -/
def dispatch_power (nodes : List Node) (total_power_kw : ℚ)
    (strategy : String) (node_setpoints : Option (List (String × ℚ))) :
    Except String (List (String × ℚ)) :=
  let online_nodes := nodes.filter (fun n => n.status = NodeStatus.online)
  if online_nodes = [] then Except.error "No online nodes available"
  else
    let manual := (node_setpoints.getD []) ≠ []
    if manual then Except.ok (node_setpoints.getD [])
    else if strategy = "proportional" then
      Except.ok (proportional_dispatch total_power_kw online_nodes)
    else if strategy = "balanced" then
      Except.ok (balanced_dispatch total_power_kw online_nodes)
    else if strategy = "priority" then
      Except.ok (priority_dispatch total_power_kw online_nodes)
    else Except.error "Unknown dispatch strategy"

/-! ## Specification-side definitions and helper lemmas for the
safety-manager aggregation rule -/

/-- Severity rank of an action in the order
`EMERGENCY_SHUTDOWN > STOP > REDUCE_POWER > LOG > NONE`. -/
def actionRank : SafetyAction → ℕ
  | SafetyAction.none => 0
  | SafetyAction.log => 1
  | SafetyAction.reducePower => 2
  | SafetyAction.stop => 3
  | SafetyAction.emergencyShutdown => 4

/-- Maximum of two actions under `actionRank`. -/
def amax (a b : SafetyAction) : SafetyAction :=
  if actionRank a < actionRank b then b else a

/-- The maximum action over a violation list in the order
`EMERGENCY_SHUTDOWN > STOP > REDUCE_POWER > LOG > NONE`, as the claim
states it. -/
def spec_max_action (violations : List SafetyViolation) : SafetyAction :=
  violations.foldl (fun acc v => amax acc v.action) SafetyAction.none

/-- The per-action state transition exactly as the claim words it:
`EMERGENCY_SHUTDOWN` latches and zeroes the reduction factor, `STOP`
zeroes the factor without latching, `REDUCE_POWER` takes
`min(current, 0.5)`, `LOG` and `NONE` change no state. -/
def claimed_transition : SafetyAction → SafetyManagerState → SafetyManagerState
  | SafetyAction.emergencyShutdown, s =>
    { s with is_emergency_stopped := true, power_reduction_factor := 0 }
  | SafetyAction.stop, s => { s with power_reduction_factor := 0 }
  | SafetyAction.reducePower, s =>
    { s with power_reduction_factor := min s.power_reduction_factor (1/2) }
  | _, s => s

/-- `_handle_violations` never promotes `LOG` into its accumulator, so
computing modulo `LOG ↦ NONE` matches it; this maps `LOG` to `NONE`. -/
def collapseLog (a : SafetyAction) : SafetyAction :=
  if a = SafetyAction.log then SafetyAction.none else a

theorem handle_step_eq (a v : SafetyAction) (h : a ≠ SafetyAction.log) :
    handle_step a v = amax a (collapseLog v) := by
  revert h; revert a v; decide

theorem amax_collapse (a b : SafetyAction) :
    amax (collapseLog a) (collapseLog b) = collapseLog (amax a b) := by
  revert a b; decide

theorem amax_collapse_ne_log (a b : SafetyAction) (h : a ≠ SafetyAction.log) :
    amax a (collapseLog b) ≠ SafetyAction.log := by
  revert h; revert a b; decide

theorem code_fold_eq (vs : List SafetyViolation) :
    ∀ a : SafetyAction, a ≠ SafetyAction.log →
      vs.foldl (fun acc v => handle_step acc v.action) a =
      vs.foldl (fun acc v => amax acc (collapseLog v.action)) a := by
  induction vs with
  | nil => intro a _; rfl
  | cons v vs ih =>
    intro a ha
    simp only [List.foldl_cons]
    rw [handle_step_eq a v.action ha]
    exact ih _ (amax_collapse_ne_log a v.action ha)

theorem collapse_fold (vs : List SafetyViolation) :
    ∀ a : SafetyAction,
      vs.foldl (fun acc v => amax acc (collapseLog v.action)) (collapseLog a) =
      collapseLog (vs.foldl (fun acc v => amax acc v.action) a) := by
  induction vs with
  | nil => intro a; rfl
  | cons v vs ih =>
    intro a
    simp only [List.foldl_cons]
    rw [amax_collapse a v.action]
    exact ih (amax a v.action)

theorem code_max_eq (vs : List SafetyViolation) :
    code_max_action vs = collapseLog (spec_max_action vs) := by
  have h1 := code_fold_eq vs SafetyAction.none (by decide)
  have h2 := collapse_fold vs SafetyAction.none
  unfold code_max_action spec_max_action
  rw [h1]
  exact h2

theorem handle_violations_eq (s : SafetyManagerState)
    (vs : List SafetyViolation) :
    handle_violations s vs = claimed_transition (spec_max_action vs) s := by
  by_cases h : vs = []
  · subst h; rfl
  · unfold handle_violations
    rw [code_max_eq vs]
    simp only [h, if_false]
    cases hm : spec_max_action vs <;>
      simp [collapseLog, claimed_transition, emergency_shutdown, sm_stop,
        reduce_power]

/-- The violation-collecting phase touches only the tracking fields and
the stored history, never the latch or the reduction factor. -/
theorem collect_violations_preserves (s : SafetyManagerState)
    (t : Telemetry) (now : ℚ) :
    (collect_violations s t now).2.is_emergency_stopped =
        s.is_emergency_stopped ∧
      (collect_violations s t now).2.power_reduction_factor =
        s.power_reduction_factor ∧
      (collect_violations s t now).2.limits = s.limits :=
  ⟨rfl, rfl, rfl⟩

/-- `claimed_transition` never clears the latch, and from a zero
reduction factor it keeps the factor at zero. -/
theorem claimed_transition_latch (a : SafetyAction)
    (s : SafetyManagerState) (hl : s.is_emergency_stopped = true)
    (hf : s.power_reduction_factor = 0) :
    (claimed_transition a s).is_emergency_stopped = true ∧
      (claimed_transition a s).power_reduction_factor = 0 := by
  cases a <;> simp [claimed_transition, hl, hf]

/-! ## Claims C1-C4: the safety manager -/

/-- A latched safety-manager state used as the concrete witness input:
the fresh manager after `emergency_shutdown()`. -/
def c1_latched : SafetyManagerState :=
  emergency_shutdown (SafetyManager_init defaultLimits)

/-- Claim C1: once the emergency latch is set (with its zero reduction
factor, which `emergency_shutdown` establishes and every transition
preserves), `apply_safety_limits` returns 0 for every request,
`check_safety` never clears the latch (and keeps the factor at zero),
and `reset` returns `false` leaving the state unchanged — in particular
`emergency_stopped` stays `true` and `power_reduction_factor` stays 0. -/
theorem C1_emergency_latch (s : SafetyManagerState) (x : ℚ) (t : Telemetry)
    (now : ℚ) (hlatch : s.is_emergency_stopped = true)
    (hfac : s.power_reduction_factor = 0) :
    apply_safety_limits s x = 0 ∧
      (check_safety s t now).1.is_emergency_stopped = true ∧
      (check_safety s t now).1.power_reduction_factor = 0 ∧
      sm_reset s = (s, false) := by
  refine ⟨by simp [apply_safety_limits, hlatch], ?_, ?_,
    by simp [sm_reset, hlatch]⟩
  · show (handle_violations (collect_violations s t now).2
      (collect_violations s t now).1).is_emergency_stopped = true
    rw [handle_violations_eq]
    exact (claimed_transition_latch _ _
      ((collect_violations_preserves s t now).1.trans hlatch)
      ((collect_violations_preserves s t now).2.1.trans hfac)).1
  · show (handle_violations (collect_violations s t now).2
      (collect_violations s t now).1).power_reduction_factor = 0
    rw [handle_violations_eq]
    exact (claimed_transition_latch _ _
      ((collect_violations_preserves s t now).1.trans hlatch)
      ((collect_violations_preserves s t now).2.1.trans hfac)).2

/-- Witness for C1 at the concrete latched state (scenario S1): requested
power 100 kW, empty telemetry, time 0. -/
theorem C1_emergency_latch_witness :
    c1_latched.is_emergency_stopped = true ∧
      c1_latched.power_reduction_factor = 0 ∧
      (apply_safety_limits c1_latched 100 = 0 ∧
        (check_safety c1_latched {} 0).1.is_emergency_stopped = true ∧
        (check_safety c1_latched {} 0).1.power_reduction_factor = 0 ∧
        sm_reset c1_latched = (c1_latched, false)) :=
  ⟨rfl, rfl, C1_emergency_latch c1_latched 100 {} 0 rfl rfl⟩

/-- The sign function used by the specification's `apply_limits`
formula. -/
def rat_sign (r : ℚ) : ℚ := if r < 0 then -1 else if r = 0 then 0 else 1

/-- The `apply_limits` behaviour exactly as the specification words it
(kept for comparison against the code's `apply_safety_limits`):
`0` if latched, otherwise `sign(requested) × min(|requested| ×
reduction_factor, rated_kW)`. -/
def claimed_apply_limits (rated : ℚ) (latched : Bool)
    (reduction_factor r : ℚ) : ℚ :=
  if latched then 0 else rat_sign r * min (|r| * reduction_factor) rated

/-- Counterexample to C2: the code has no rated-power clamp at all (the
`SafetyManager` holds no rated power).  For a fresh manager
(`reduction_factor = 1`, unlatched) and a 200 kW request, the code
returns 200 kW while the claimed formula for a 100 kW-rated node (the
rated power of the specification's scenario nodes) returns 100 kW; the
returned magnitude exceeds that rated power. -/
theorem C2_counterexample :
    apply_safety_limits (SafetyManager_init defaultLimits) 200 = 200 ∧
      claimed_apply_limits 100 false 1 200 = 100 ∧
      ¬ (|apply_safety_limits (SafetyManager_init defaultLimits) 200| ≤ 100) := by
  refine ⟨by norm_num [apply_safety_limits, SafetyManager_init], ?_, ?_⟩
  · norm_num [claimed_apply_limits, rat_sign]
  · norm_num [apply_safety_limits, SafetyManager_init]

/-- Claim C2 (amended): when the latch is not set,
`apply_safety_limits(r)` returns `r × power_reduction_factor` — there is
no rated-power clamp in the code — and with a reduction factor in
`[0, 1]` the returned magnitude is bounded by the requested magnitude
only. -/
theorem C2_apply_limits (s : SafetyManagerState) (r : ℚ)
    (h : s.is_emergency_stopped = false)
    (h0 : 0 ≤ s.power_reduction_factor)
    (h1 : s.power_reduction_factor ≤ 1) :
    apply_safety_limits s r = r * s.power_reduction_factor ∧
      |apply_safety_limits s r| ≤ |r| := by
  have he : apply_safety_limits s r = r * s.power_reduction_factor := by
    simp [apply_safety_limits, h]
  refine ⟨he, ?_⟩
  rw [he, abs_mul, abs_of_nonneg h0]
  exact mul_le_of_le_one_right (abs_nonneg r) h1

/-- Witness for C2 (amended) at the fresh manager and a 200 kW request. -/
theorem C2_apply_limits_witness :
    (SafetyManager_init defaultLimits).is_emergency_stopped = false ∧
      (0 : ℚ) ≤ (SafetyManager_init defaultLimits).power_reduction_factor ∧
      (SafetyManager_init defaultLimits).power_reduction_factor ≤ 1 ∧
      (apply_safety_limits (SafetyManager_init defaultLimits) 200 =
          200 * (SafetyManager_init defaultLimits).power_reduction_factor ∧
        |apply_safety_limits (SafetyManager_init defaultLimits) 200| ≤ |(200 : ℚ)|) :=
  ⟨rfl, by norm_num [SafetyManager_init], by norm_num [SafetyManager_init],
   C2_apply_limits (SafetyManager_init defaultLimits) 200 rfl
     (by norm_num [SafetyManager_init]) (by norm_num [SafetyManager_init])⟩

/-- Claim C3: in every `check_safety` tick the applied state change is
`claimed_transition` of the maximum action over the emitted violations
in the order `EMERGENCY_SHUTDOWN > STOP > REDUCE_POWER > LOG > NONE`
(emergency latches and zeroes the factor, stop zeroes the factor without
latching, reduce-power takes `min(current, 0.5)`, log/none change
nothing), applied on top of the tracking-field updates. -/
theorem C3_tick_transition (s : SafetyManagerState) (t : Telemetry)
    (now : ℚ) :
    (check_safety s t now).1 =
      claimed_transition (spec_max_action (check_safety s t now).2)
        (collect_violations s t now).2 := by
  show handle_violations (collect_violations s t now).2
      (collect_violations s t now).1 = _
  rw [handle_violations_eq]
  rfl

/-- Counterexample to C4: on a completely empty telemetry dict the code
substitutes defaults (voltage 0 V, SOC 0 %) instead of skipping the
dependent checks: it emits `pack_undervoltage` (action STOP) and
`low_soc` (action REDUCE_POWER), emits no `telemetry_incomplete`
violation at all, and the tick applies STOP (the reduction factor drops
to 0) — so a missing field alone does produce a STOP action. -/
theorem C4_counterexample :
    (check_safety (SafetyManager_init defaultLimits) {} 0).2.map
        SafetyViolation.category = ["pack_undervoltage", "low_soc"] ∧
      (check_safety (SafetyManager_init defaultLimits) {} 0).2.map
        SafetyViolation.action =
        [SafetyAction.stop, SafetyAction.reducePower] ∧
      ((check_safety (SafetyManager_init defaultLimits) {} 0).2.map
        SafetyViolation.category).contains "telemetry_incomplete" = false ∧
      (check_safety (SafetyManager_init defaultLimits) {} 0).1.power_reduction_factor = 0 := by
  refine ⟨?_, ?_, ?_, ?_⟩ <;>
    norm_num [check_safety, collect_violations, check_cell_voltages,
      check_pack_voltage, check_current, check_temperature, check_soc,
      check_soh, check_rate_limits, check_bms_alarms, handle_violations,
      code_max_action, handle_step, sm_stop, emergency_shutdown,
      reduce_power, SafetyManager_init, defaultLimits] <;>
    decide

/-- Claim C4 (amended): `check_safety` is a total function (it never
fails), but missing telemetry fields are evaluated on substituted
defaults — `soc = 0`, `soh = 100`, `voltage = 0`, `current = 0`,
`temperature = 25`, `power_kw = 0` — rather than being skipped and
flagged: a tick on an empty telemetry dict behaves exactly like a tick
on those default values, for every prior manager state. -/
theorem C4_missing_fields_defaulted (s : SafetyManagerState) (now : ℚ) :
    check_safety s {} now =
      check_safety s
        { soc := some 0, soh := some 100, voltage := some 0,
          current := some 0, temperature := some 25, power_kw := some 0 }
        now := rfl

/-! ## Helper lemmas for the droop controller -/

/-- The clamp-then-ramp stage moves the setpoint by at most
`ramp_rate_kw_per_s` in a single call. -/
theorem clamp_and_ramp_step (settings : DroopSettings) (sp p1 : ℚ)
    (hr : 0 ≤ settings.ramp_rate_kw_per_s) :
    |clamp_and_ramp settings sp p1 - sp| ≤ settings.ramp_rate_kw_per_s := by
  simp only [clamp_and_ramp]
  split_ifs with h1 h2
  · rw [add_sub_cancel_left, abs_of_nonneg hr]
  · have he : sp - settings.ramp_rate_kw_per_s - sp =
        -settings.ramp_rate_kw_per_s := by ring
    rw [he, abs_neg, abs_of_nonneg hr]
  · exact le_of_not_lt h1

/-- The clamp-then-ramp stage keeps the setpoint inside
`[-max_power_kw, max_power_kw]` when it starts there. -/
theorem clamp_and_ramp_bound (settings : DroopSettings) (sp p1 : ℚ)
    (hM : 0 ≤ settings.max_power_kw)
    (hr : 0 ≤ settings.ramp_rate_kw_per_s)
    (hsp : |sp| ≤ settings.max_power_kw) :
    |clamp_and_ramp settings sp p1| ≤ settings.max_power_kw := by
  rcases abs_le.mp hsp with ⟨hsp1, hsp2⟩
  have hp2l : -settings.max_power_kw ≤
      max (-settings.max_power_kw) (min settings.max_power_kw p1) :=
    le_max_left _ _
  have hp2r : max (-settings.max_power_kw) (min settings.max_power_kw p1) ≤
      settings.max_power_kw :=
    max_le (by linarith) (min_le_left _ _)
  rw [abs_le]
  simp only [clamp_and_ramp]
  split_ifs with h1 h2
  · constructor
    · linarith
    · have hgt : settings.ramp_rate_kw_per_s <
          max (-settings.max_power_kw) (min settings.max_power_kw p1) - sp := by
        calc settings.ramp_rate_kw_per_s
            < |max (-settings.max_power_kw) (min settings.max_power_kw p1) - sp| := h1
          _ = _ := abs_of_pos h2
      linarith
  · have hlt : max (-settings.max_power_kw) (min settings.max_power_kw p1) -
        sp ≤ 0 := le_of_not_lt h2
    have hgt : settings.ramp_rate_kw_per_s <
        -(max (-settings.max_power_kw) (min settings.max_power_kw p1) - sp) := by
      calc settings.ramp_rate_kw_per_s
          < |max (-settings.max_power_kw) (min settings.max_power_kw p1) - sp| := h1
        _ = _ := abs_of_nonpos hlt
    constructor
    · linarith
    · linarith
  · exact ⟨hp2l, hp2r⟩

/-- Without a ROCOF sample, the raw droop response is strictly positive
below nominal frequency and strictly negative above it (for positive
capacity and droop). -/
theorem droop_raw_sign (settings : DroopSettings) (f : ℚ)
    (hM : 0 < settings.max_power_kw) (hd : 0 < settings.droop_percent) :
    (f < f_nominal → 0 < droop_raw settings f Option.none) ∧
      (f_nominal < f → droop_raw settings f Option.none < 0) := by
  have hA : 0 < settings.max_power_kw / (settings.droop_percent / 100) :=
    div_pos hM (by positivity)
  have hfn : (0 : ℚ) < f_nominal := by norm_num [f_nominal]
  constructor
  · intro hf
    have hB : (f - f_nominal) / f_nominal < 0 :=
      div_neg_of_neg_of_pos (sub_neg.mpr hf) hfn
    have h := mul_pos_of_neg_of_neg (neg_lt_zero.mpr hA) hB
    simpa [droop_raw] using h
  · intro hf
    have hB : 0 < (f - f_nominal) / f_nominal :=
      div_pos (sub_pos.mpr hf) hfn
    have h := mul_neg_of_neg_of_pos (neg_lt_zero.mpr hA) hB
    simpa [droop_raw] using h

/-- From a zero stored setpoint the clamp-then-ramp stage preserves
strict sign. -/
theorem clamp_and_ramp_sign (settings : DroopSettings) (p1 : ℚ)
    (hM : 0 < settings.max_power_kw)
    (hr : 0 < settings.ramp_rate_kw_per_s) :
    (0 < p1 → 0 < clamp_and_ramp settings 0 p1) ∧
      (p1 < 0 → clamp_and_ramp settings 0 p1 < 0) := by
  constructor
  · intro hp
    have hp2 : 0 < max (-settings.max_power_kw) (min settings.max_power_kw p1) :=
      lt_of_lt_of_le (lt_min hM hp) (le_max_right _ _)
    simp only [clamp_and_ramp]
    split_ifs with h1 h2
    · linarith
    · simp only [sub_zero] at h2
      exact absurd hp2 h2
    · simpa using hp2
  · intro hp
    have hp2 : max (-settings.max_power_kw) (min settings.max_power_kw p1) < 0 := by
      have : min settings.max_power_kw p1 < 0 := lt_of_le_of_lt (min_le_right _ _) hp
      exact max_lt (by linarith) this
    simp only [clamp_and_ramp]
    split_ifs with h1 h2
    · simp only [sub_zero] at h2
      exact absurd h2 (not_lt.mpr (le_of_lt hp2))
    · linarith
    · simpa using hp2

/-- The SOC factor always lies in `[0, 1]`. -/
theorem soc_factor_bounds (soc f : ℚ) :
    0 ≤ get_soc_factor soc f ∧ get_soc_factor soc f ≤ 1 := by
  simp only [get_soc_factor]
  split_ifs <;> norm_num

/-- The temperature factor always lies in `[0, 1]`. -/
theorem temp_factor_bounds (t : ℚ) :
    0 ≤ get_temperature_factor t ∧ get_temperature_factor t ≤ 1 := by
  simp only [get_temperature_factor]
  split_ifs with h1 h2 h3
  · norm_num
  · refine ⟨le_trans (by norm_num) (le_max_left _ _), max_le (by norm_num) ?_⟩
    nlinarith [h2]
  · have h15 : (15 : ℚ) ≤ t := not_lt.mp h2
    push_neg at h1
    have h35 : 35 < t := h1 h15
    refine ⟨le_trans (by norm_num) (le_max_left _ _), max_le (by norm_num) ?_⟩
    nlinarith
  · norm_num

/-- One base-controller call: the returned value and new stored setpoint
stay inside the power envelope, and the settings are untouched. -/
theorem base_step_bound (s : DroopState) (f : ℚ) (rocof : Option ℚ)
    (hM : 0 ≤ s.settings.max_power_kw)
    (hr : 0 ≤ s.settings.ramp_rate_kw_per_s)
    (hsp : |s.current_power_setpoint| ≤ s.settings.max_power_kw) :
    |(calculate_power_response s f rocof).2| ≤ s.settings.max_power_kw ∧
      |(calculate_power_response s f rocof).1.current_power_setpoint| ≤
        s.settings.max_power_kw ∧
      (calculate_power_response s f rocof).1.settings = s.settings := by
  unfold calculate_power_response
  split_ifs with h1 h2 h3
  · exact ⟨by simpa using hM, hsp, rfl⟩
  · exact ⟨by simpa using hM, hsp, rfl⟩
  · exact ⟨by simpa using hM, hsp, rfl⟩
  · refine ⟨?_, ?_, rfl⟩ <;>
      simpa [droop_response_core] using
        clamp_and_ramp_bound s.settings s.current_power_setpoint
          (droop_raw s.settings f rocof) hM hr hsp

/-- One adaptive-controller call: the returned value and new stored
setpoint stay inside the power envelope, and the settings are
untouched. -/
theorem adaptive_step_bound (a : AdaptiveDroopState) (f : ℚ)
    (rocof soc temp : Option ℚ)
    (hM : 0 ≤ a.base.settings.max_power_kw)
    (hr : 0 ≤ a.base.settings.ramp_rate_kw_per_s)
    (hsp : |a.base.current_power_setpoint| ≤ a.base.settings.max_power_kw) :
    |(calculate_power_response_adaptive a f rocof soc temp).2| ≤
        a.base.settings.max_power_kw ∧
      |(calculate_power_response_adaptive a f rocof soc temp).1.base.current_power_setpoint| ≤
        a.base.settings.max_power_kw ∧
      (calculate_power_response_adaptive a f rocof soc temp).1.base.settings =
        a.base.settings := by
  obtain ⟨hb1, hb2, hb3⟩ := base_step_bound a.base f rocof hM hr hsp
  refine ⟨?_, hb2, hb3⟩
  show |(calculate_power_response a.base f rocof).2 *
    get_soc_factor (soc.getD a.soc) f *
    get_temperature_factor (temp.getD a.temperature)| ≤ _
  rw [abs_mul, abs_mul]
  have hs := soc_factor_bounds (soc.getD a.soc) f
  have ht := temp_factor_bounds (temp.getD a.temperature)
  calc |(calculate_power_response a.base f rocof).2| *
        |get_soc_factor (soc.getD a.soc) f| *
        |get_temperature_factor (temp.getD a.temperature)|
      ≤ |(calculate_power_response a.base f rocof).2| * 1 * 1 := by
        have h1 : |get_soc_factor (soc.getD a.soc) f| ≤ 1 := by
          rw [abs_of_nonneg hs.1]; exact hs.2
        have h2 : |get_temperature_factor (temp.getD a.temperature)| ≤ 1 := by
          rw [abs_of_nonneg ht.1]; exact ht.2
        have hnn : (0:ℚ) ≤ |(calculate_power_response a.base f rocof).2| :=
          abs_nonneg _
        have := mul_le_mul (mul_le_mul le_rfl h1 (abs_nonneg _) hnn) h2
          (abs_nonneg _) (by positivity)
        simpa using this
    _ = |(calculate_power_response a.base f rocof).2| := by ring
    _ ≤ a.base.settings.max_power_kw := hb1

/-! ## Claims C5, C6, C10: the droop controller -/

/-- The default response mode is not `OFF`. -/
theorem primary_ne_off : ¬ (ResponseMode.primary = ResponseMode.off) := by
  decide

/-- The freshly constructed controller with default settings, after
`enable()`. -/
def c5_enabled : DroopState := { droop_init {} with enabled := true }

/-- Counterexample to C5: with ROCOF damping enabled (the default) a
large positive ROCOF sample overwhelms the droop term.  At `f = 49 Hz`
(strictly below nominal and outside the deadband) with `rocof = 100`,
the freshly enabled default controller commands `-50 kW` — a charge,
not a discharge. -/
theorem C5_counterexample :
    (49 : ℚ) < f_nominal ∧
      ¬ (c5_enabled.settings.deadband_low ≤ 49 ∧
        (49 : ℚ) ≤ c5_enabled.settings.deadband_high) ∧
      (calculate_power_response c5_enabled 49 (some 100)).2 = -50 ∧
      ¬ (0 < (calculate_power_response c5_enabled 49 (some 100)).2) := by
  refine ⟨by norm_num [f_nominal], ?_, ?_, ?_⟩ <;>
    norm_num [calculate_power_response, droop_response_core, droop_raw,
      clamp_and_ramp, c5_enabled, droop_init, f_nominal, primary_ne_off]

/-- Claim C5 (amended): for an enabled controller in a responding mode
with positive capacity, droop and ramp settings, starting from a zero
stored setpoint and with *no ROCOF sample*, the commanded power (before
the adaptive SOC/temperature derating) is strictly positive below
nominal frequency outside the deadband, and strictly negative above it.
With a ROCOF sample the damping term can flip the sign (see the
counterexample), and an adverse prior setpoint can do the same through
the ramp limiter. -/
theorem C5_droop_sign (settings : DroopSettings) (f : ℚ)
    (hM : 0 < settings.max_power_kw) (hd : 0 < settings.droop_percent)
    (hr : 0 < settings.ramp_rate_kw_per_s)
    (hmode : settings.response_mode ≠ ResponseMode.off)
    (hdb : ¬ (settings.deadband_low ≤ f ∧ f ≤ settings.deadband_high)) :
    (f < f_nominal →
      0 < (calculate_power_response
        { settings := settings, enabled := true, current_power_setpoint := 0,
          last_frequency := 50 } f Option.none).2) ∧
    (f_nominal < f →
      (calculate_power_response
        { settings := settings, enabled := true, current_power_setpoint := 0,
          last_frequency := 50 } f Option.none).2 < 0) := by
  have hraw := droop_raw_sign settings f hM hd
  have hcr := clamp_and_ramp_sign settings (droop_raw settings f Option.none) hM hr
  constructor
  · intro hf
    have : (calculate_power_response
        { settings := settings, enabled := true, current_power_setpoint := 0,
          last_frequency := 50 } f Option.none).2 =
        clamp_and_ramp settings 0 (droop_raw settings f Option.none) := by
      simp [calculate_power_response, droop_response_core, hmode, hdb]
    rw [this]
    exact hcr.1 (hraw.1 hf)
  · intro hf
    have : (calculate_power_response
        { settings := settings, enabled := true, current_power_setpoint := 0,
          last_frequency := 50 } f Option.none).2 =
        clamp_and_ramp settings 0 (droop_raw settings f Option.none) := by
      simp [calculate_power_response, droop_response_core, hmode, hdb]
    rw [this]
    exact hcr.2 (hraw.2 hf)

/-- Witness for C5 (amended) at the default settings, `f = 49.8 Hz`
(below deadband) and `f = 50.2 Hz` (above deadband). -/
theorem C5_droop_sign_witness :
    (0 : ℚ) < ({} : DroopSettings).max_power_kw ∧
      (0 : ℚ) < ({} : DroopSettings).droop_percent ∧
      (0 : ℚ) < ({} : DroopSettings).ramp_rate_kw_per_s ∧
      0 < (calculate_power_response
        { settings := {}, enabled := true, current_power_setpoint := 0,
          last_frequency := 50 } 49.8 Option.none).2 ∧
      (calculate_power_response
        { settings := {}, enabled := true, current_power_setpoint := 0,
          last_frequency := 50 } 50.2 Option.none).2 < 0 :=
  ⟨by norm_num, by norm_num, by norm_num,
   (C5_droop_sign {} 49.8 (by norm_num) (by norm_num) (by norm_num)
     (by decide) (by norm_num)).1 (by norm_num [f_nominal]),
   (C5_droop_sign {} 50.2 (by norm_num) (by norm_num) (by norm_num)
     (by decide) (by norm_num)).2 (by norm_num [f_nominal])⟩

/-- The freshly constructed adaptive controller with default settings,
after `enable()`. -/
def c6_fresh : AdaptiveDroopState := { adaptive_init {} with base.enabled := true }

/-- The first two consecutive adaptive calls at `f = 47.5 Hz`,
`SOC = 85 %`, `T = 25 °C`. -/
def c6_call1 : AdaptiveDroopState × ℚ :=
  calculate_power_response_adaptive c6_fresh 47.5 Option.none (some 85) (some 25)

/-- The second of the two consecutive calls. -/
def c6_call2 : AdaptiveDroopState × ℚ :=
  calculate_power_response_adaptive c6_call1.1 47.5 Option.none (some 85) (some 25)

/-- Counterexample to C6: the code never scales the ramp limit by the
actual sample interval (it allows a full `ramp_rate_kw_per_s` step on
*every call*, assuming 1-second intervals).  Two consecutive calls
`Δt = 0.5 s` apart command 50 kW then 100 kW: the step of 50 kW exceeds
the claimed bound `ramp_rate_kw_per_s × Δt = 25 kW`. -/
theorem C6_counterexample :
    c6_call1.2 = 50 ∧ c6_call2.2 = 100 ∧
      ¬ (|c6_call2.2 - c6_call1.2| ≤
        ({} : DroopSettings).ramp_rate_kw_per_s * (1/2)) := by
  refine ⟨?_, ?_, ?_⟩ <;>
    norm_num [c6_call1, c6_call2, c6_fresh, adaptive_init, droop_init,
      calculate_power_response_adaptive, calculate_power_response,
      droop_response_core, droop_raw, clamp_and_ramp, get_soc_factor,
      get_temperature_factor, f_nominal, primary_ne_off]

/-- Claim C6 (amended): for the base controller, whenever a call gets
past the enable/mode/deadband guards, the returned value (which is also
the new stored setpoint) moves away from the previous stored setpoint by
at most `ramp_rate_kw_per_s` — the code's fixed per-call allowance,
which corresponds to the claimed bound only at its assumed 1-second
sample interval; the bound is not scaled by the actual `Δt`, and the
adaptive controller's final outputs (after SOC/temperature factors) are
not ramp-limited at all. -/
theorem C6_ramp_per_call (s : DroopState) (f : ℚ) (rocof : Option ℚ)
    (hr : 0 ≤ s.settings.ramp_rate_kw_per_s) (hen : s.enabled = true)
    (hmode : s.settings.response_mode ≠ ResponseMode.off)
    (hdb : ¬ (s.settings.deadband_low ≤ f ∧ f ≤ s.settings.deadband_high)) :
    |(calculate_power_response s f rocof).2 - s.current_power_setpoint| ≤
        s.settings.ramp_rate_kw_per_s ∧
      (calculate_power_response s f rocof).1.current_power_setpoint =
        (calculate_power_response s f rocof).2 := by
  have hresp : (calculate_power_response s f rocof).2 =
      clamp_and_ramp s.settings s.current_power_setpoint
        (droop_raw s.settings f rocof) := by
    simp [calculate_power_response, droop_response_core, hen, hmode, hdb]
  refine ⟨?_, ?_⟩
  · rw [hresp]
    exact clamp_and_ramp_step s.settings s.current_power_setpoint
      (droop_raw s.settings f rocof) hr
  · simp [calculate_power_response, droop_response_core, hen, hmode, hdb]

/-- Witness for C6 (amended): the freshly enabled default controller at
`f = 47.5 Hz` steps by at most 50 kW. -/
theorem C6_ramp_per_call_witness :
    (0 : ℚ) ≤ c5_enabled.settings.ramp_rate_kw_per_s ∧
      c5_enabled.enabled = true ∧
      |(calculate_power_response c5_enabled 47.5 Option.none).2 -
          c5_enabled.current_power_setpoint| ≤
        c5_enabled.settings.ramp_rate_kw_per_s :=
  ⟨by norm_num [c5_enabled, droop_init], rfl,
   (C6_ramp_per_call c5_enabled 47.5 Option.none
     (by norm_num [c5_enabled, droop_init]) rfl (by decide)
     (by norm_num [c5_enabled, droop_init])).1⟩

/-- One call of the adaptive controller, as queued in a run. -/
structure AdaptiveCall where
  frequency : ℚ
  rocof : Option ℚ := Option.none
  soc : Option ℚ := Option.none
  temperature : Option ℚ := Option.none

/-- A run of the adaptive controller from the freshly constructed,
then enabled, state: returns the final state and the list of returned
setpoints. -/
def adaptive_run (settings : DroopSettings) (calls : List AdaptiveCall) :
    AdaptiveDroopState × List ℚ :=
  calls.foldl
    (fun acc c =>
      let r := calculate_power_response_adaptive acc.1 c.frequency c.rocof
        c.soc c.temperature
      (r.1, acc.2 ++ [r.2]))
    ({ adaptive_init settings with base.enabled := true }, [])

/-- Claim C10: starting from the freshly constructed (then enabled)
adaptive droop controller and nonnegative `max_power_kw` and
`ramp_rate_kw_per_s` settings that are never changed, after any sequence
of calls the stored setpoint lies in `[-max_power_kw, max_power_kw]`
and every returned value (the base response scaled by the SOC and
temperature factors, which lie in `[0, 1]`) has magnitude at most
`max_power_kw`. -/
theorem C10_power_envelope (settings : DroopSettings)
    (calls : List AdaptiveCall) (hM : 0 ≤ settings.max_power_kw)
    (hr : 0 ≤ settings.ramp_rate_kw_per_s) :
    |(adaptive_run settings calls).1.base.current_power_setpoint| ≤
        settings.max_power_kw ∧
      ∀ p ∈ (adaptive_run settings calls).2, |p| ≤ settings.max_power_kw := by
  suffices h : ∀ (a : AdaptiveDroopState) (outs : List ℚ),
      a.base.settings = settings →
      |a.base.current_power_setpoint| ≤ settings.max_power_kw →
      (∀ p ∈ outs, |p| ≤ settings.max_power_kw) →
      |(calls.foldl
        (fun acc c =>
          let r := calculate_power_response_adaptive acc.1 c.frequency c.rocof
            c.soc c.temperature
          (r.1, acc.2 ++ [r.2])) (a, outs)).1.base.current_power_setpoint| ≤
          settings.max_power_kw ∧
        ∀ p ∈ (calls.foldl
          (fun acc c =>
            let r := calculate_power_response_adaptive acc.1 c.frequency c.rocof
              c.soc c.temperature
            (r.1, acc.2 ++ [r.2])) (a, outs)).2, |p| ≤ settings.max_power_kw by
    exact h _ [] rfl (by simpa using hM) (by simp)
  induction calls with
  | nil => intro a outs hset hsp houts; exact ⟨hsp, houts⟩
  | cons c cs ih =>
    intro a outs hset hsp houts
    simp only [List.foldl_cons]
    have hM2 : 0 ≤ a.base.settings.max_power_kw := by rw [hset]; exact hM
    have hr2 : 0 ≤ a.base.settings.ramp_rate_kw_per_s := by rw [hset]; exact hr
    have hsp2 : |a.base.current_power_setpoint| ≤
        a.base.settings.max_power_kw := by rw [hset]; exact hsp
    obtain ⟨hb1, hb2, hb3⟩ := adaptive_step_bound a c.frequency c.rocof c.soc
      c.temperature hM2 hr2 hsp2
    rw [hset] at hb1 hb2 hb3
    exact ih _ _ hb3 hb2
      (by
        intro p hp
        rcases List.mem_append.mp hp with hp | hp
        · exact houts p hp
        · rcases List.mem_singleton.mp hp with rfl
          exact hb1)

/-- A concrete two-call sequence for the C10 witness. -/
def c10_calls : List AdaptiveCall :=
  [{ frequency := 47.5 }, { frequency := 49, soc := some 10, temperature := some 60 }]

/-- Witness for C10 at the default settings and a concrete two-call
run. -/
theorem C10_power_envelope_witness :
    (0 : ℚ) ≤ ({} : DroopSettings).max_power_kw ∧
      (0 : ℚ) ≤ ({} : DroopSettings).ramp_rate_kw_per_s ∧
      |(adaptive_run {} c10_calls).1.base.current_power_setpoint| ≤
        ({} : DroopSettings).max_power_kw :=
  ⟨by norm_num, by norm_num,
   (C10_power_envelope {} c10_calls (by norm_num) (by norm_num)).1⟩

/-! ## Claims C7, C8, C9: the campus dispatch -/

/-- An online node for the dispatch scenarios. -/
def mkOnlineNode (id : String) (rated : ℚ) (soc : Option ℚ) : Node :=
  { node_id := id, status := NodeStatus.online,
    capacity := { rated_power_kw := rated }, soc := soc }

/-- The specification's scenario S3: nodes A, B, C with SOC 90, 60, 30,
rated 100 kW each. -/
def s3_nodes : List Node :=
  [mkOnlineNode "A" 100 (some 90), mkOnlineNode "B" 100 (some 60),
   mkOnlineNode "C" 100 (some 30)]

/-- Counterexample to C7: the balanced strategy does not conserve the
dispatch total.  On scenario S3 with `total_kW = -30` it returns
setpoints summing to `-15` (no clamp saturation is involved — every
magnitude is far below the 100 kW rating), missing the total by 15 kW,
far beyond the 0.1 kW tolerance, and no residual is reported. -/
theorem C7_counterexample :
    balanced_dispatch (-30) s3_nodes =
        [("A", -15), ("B", 0), ("C", 0)] ∧
      ((balanced_dispatch (-30) s3_nodes).map Prod.snd).sum = -15 ∧
      ¬ (|((balanced_dispatch (-30) s3_nodes).map Prod.snd).sum - (-30)| ≤
        1/10) := by
  refine ⟨?_, ?_, ?_⟩ <;>
    norm_num [balanced_dispatch, s3_nodes, mkOnlineNode, socOr]

/-- The exact-conservation identity of `_proportional_dispatch`: the
setpoints sum to the dispatched total whenever the rated powers do not
sum to zero. -/
theorem proportional_dispatch_sum (total_power_kw : ℚ) (nodes : List Node)
    (hcap : (nodes.map (fun n => n.capacity.rated_power_kw)).sum ≠ 0) :
    ((proportional_dispatch total_power_kw nodes).map Prod.snd).sum =
      total_power_kw := by
  have hmap : (proportional_dispatch total_power_kw nodes).map Prod.snd =
      nodes.map (fun n => total_power_kw *
        (n.capacity.rated_power_kw /
          (nodes.map (fun n => n.capacity.rated_power_kw)).sum)) := by
    simp [proportional_dispatch]
  rw [hmap, List.sum_map_mul_left]
  have hdiv : (nodes.map (fun n => n.capacity.rated_power_kw /
      (nodes.map (fun n => n.capacity.rated_power_kw)).sum)).sum =
      (nodes.map (fun n => n.capacity.rated_power_kw)).sum *
        ((nodes.map (fun n => n.capacity.rated_power_kw)).sum)⁻¹ := by
    simp only [div_eq_mul_inv]
    rw [List.sum_map_mul_right]
  rw [hdiv, mul_inv_cancel₀ hcap, mul_one]

/-- The zero-fill tail of `_priority_dispatch` contributes nothing to
the setpoint sum. -/
theorem zero_fill_sum (l : List Node) :
    ((l.map (fun n => (n.node_id, (0 : ℚ)))).map Prod.snd).sum = 0 := by
  rw [List.map_map]
  induction l with
  | nil => rfl
  | cons n rest ih => simpa using ih

/-- Greedy allocation of a nonnegative (charge) total: as long as the
nonnegative rated powers cover the remaining amount, the allocated
setpoints reproduce it to within the loop's 0.1 kW break threshold. -/
theorem priority_alloc_conserves_nonneg (total : ℚ) (htot : 0 ≤ total) :
    ∀ (nodes : List Node) (remaining : ℚ),
      (∀ n ∈ nodes, 0 ≤ n.capacity.rated_power_kw) →
      0 ≤ remaining →
      remaining ≤ (nodes.map (fun n => n.capacity.rated_power_kw)).sum →
      |remaining -
        ((priority_alloc total nodes remaining).map Prod.snd).sum| <
        (0.1 : ℚ) := by
  intro nodes
  induction nodes with
  | nil =>
    intro remaining _ hrem hcap
    simp only [List.map_nil, List.sum_nil] at hcap
    have h0 : remaining = 0 := le_antisymm hcap hrem
    simp only [priority_alloc, h0, List.map_nil, List.sum_nil, sub_zero,
      abs_zero]
    norm_num
  | cons n rest ih =>
    intro remaining hrated hrem hcap
    have hrest : ∀ m ∈ rest, 0 ≤ m.capacity.rated_power_kw :=
      fun m hm => hrated m (List.mem_cons_of_mem n hm)
    rw [List.map_cons, List.sum_cons] at hcap
    simp only [priority_alloc, ge_iff_le, htot, if_true,
      abs_of_nonneg hrem]
    rcases le_total remaining n.capacity.rated_power_kw with hmin | hmin
    · rw [min_eq_left hmin, sub_self, abs_zero,
        if_pos (by norm_num : (0 : ℚ) < 0.1)]
      simp only [List.map_cons, List.map_nil, List.sum_cons, List.sum_nil,
        add_zero, sub_self, abs_zero]
      norm_num
    · rw [min_eq_right hmin]
      by_cases hbr : |remaining - n.capacity.rated_power_kw| < (0.1 : ℚ)
      · rw [if_pos hbr]
        simpa using hbr
      · rw [if_neg hbr]
        have hih := ih (remaining - n.capacity.rated_power_kw) hrest
          (sub_nonneg.mpr hmin) (by linarith)
        rw [sub_sub] at hih
        simpa using hih

/-- Greedy allocation of a negative (discharge) total: symmetric to the
nonnegative case. -/
theorem priority_alloc_conserves_nonpos (total : ℚ) (htot : total < 0) :
    ∀ (nodes : List Node) (remaining : ℚ),
      (∀ n ∈ nodes, 0 ≤ n.capacity.rated_power_kw) →
      remaining ≤ 0 →
      -remaining ≤ (nodes.map (fun n => n.capacity.rated_power_kw)).sum →
      |remaining -
        ((priority_alloc total nodes remaining).map Prod.snd).sum| <
        (0.1 : ℚ) := by
  have hneg : ¬ (0 ≤ total) := not_le.mpr htot
  intro nodes
  induction nodes with
  | nil =>
    intro remaining _ hrem hcap
    simp only [List.map_nil, List.sum_nil] at hcap
    have h0 : remaining = 0 := le_antisymm hrem (by linarith)
    simp only [priority_alloc, h0, List.map_nil, List.sum_nil, sub_zero,
      abs_zero]
    norm_num
  | cons n rest ih =>
    intro remaining hrated hrem hcap
    have hrest : ∀ m ∈ rest, 0 ≤ m.capacity.rated_power_kw :=
      fun m hm => hrated m (List.mem_cons_of_mem n hm)
    rw [List.map_cons, List.sum_cons] at hcap
    simp only [priority_alloc, ge_iff_le, hneg, if_false,
      abs_of_nonpos hrem]
    rcases le_total (-remaining) n.capacity.rated_power_kw with hmin | hmin
    · rw [min_eq_left hmin, neg_neg, sub_self, abs_zero,
        if_pos (by norm_num : (0 : ℚ) < 0.1)]
      simp only [List.map_cons, List.map_nil, List.sum_cons, List.sum_nil,
        add_zero, sub_self, abs_zero]
      norm_num
    · rw [min_eq_right hmin]
      by_cases hbr :
          |remaining - -n.capacity.rated_power_kw| < (0.1 : ℚ)
      · rw [if_pos hbr]
        simpa using hbr
      · rw [if_neg hbr]
        have hih := ih (remaining - -n.capacity.rated_power_kw) hrest
          (by linarith) (by linarith)
        rw [sub_sub] at hih
        simpa using hih

/-- `_priority_dispatch` conserves the total within the 0.1 kW
tolerance whenever the nonnegative rated powers of the dispatched nodes
cover its magnitude (so the greedy loop never saturates). -/
theorem priority_dispatch_conserves (total_power_kw : ℚ)
    (nodes : List Node)
    (hrated : ∀ n ∈ nodes, 0 ≤ n.capacity.rated_power_kw)
    (htot : |total_power_kw| ≤
      (nodes.map (fun n => n.capacity.rated_power_kw)).sum) :
    |((priority_dispatch total_power_kw nodes).map Prod.snd).sum -
      total_power_kw| ≤ 1/10 := by
  have key : ∀ l : List Node, l.Perm nodes →
      |((priority_alloc total_power_kw l total_power_kw).map Prod.snd).sum -
        total_power_kw| < (0.1 : ℚ) := by
    intro l hperm
    have hrl : ∀ n ∈ l, 0 ≤ n.capacity.rated_power_kw :=
      fun n hn => hrated n (hperm.mem_iff.mp hn)
    have hsl : (l.map (fun n => n.capacity.rated_power_kw)).sum =
        (nodes.map (fun n => n.capacity.rated_power_kw)).sum :=
      (hperm.map (fun n => n.capacity.rated_power_kw)).sum_eq
    rw [abs_sub_comm]
    rcases le_or_lt 0 total_power_kw with hs | hs
    · exact priority_alloc_conserves_nonneg total_power_kw hs l
        total_power_kw hrl hs
        (by rw [hsl]; rw [abs_of_nonneg hs] at htot; exact htot)
    · exact priority_alloc_conserves_nonpos total_power_kw hs l
        total_power_kw hrl (le_of_lt hs)
        (by rw [hsl]; rw [abs_of_neg hs] at htot; exact htot)
  have hdisp : ((priority_dispatch total_power_kw nodes).map Prod.snd).sum =
      ((priority_alloc total_power_kw
        (if total_power_kw < 0 then
          nodes.mergeSort (fun a b => socOr b.soc 0 ≤ socOr a.soc 0)
        else
          nodes.mergeSort (fun a b => socOr a.soc 100 ≤ socOr b.soc 100))
        total_power_kw).map Prod.snd).sum := by
    simp only [priority_dispatch]
    rw [List.map_append, List.sum_append, zero_fill_sum, add_zero]
  rw [hdisp]
  rcases lt_or_le total_power_kw 0 with hc | hc
  · rw [if_pos hc]
    have := key (nodes.mergeSort (fun a b => socOr b.soc 0 ≤ socOr a.soc 0))
      (List.mergeSort_perm nodes _)
    have h01 : (0.1 : ℚ) = 1/10 := by norm_num
    linarith [this, (abs_nonneg (((priority_alloc total_power_kw
      (nodes.mergeSort (fun a b => socOr b.soc 0 ≤ socOr a.soc 0))
      total_power_kw).map Prod.snd).sum - total_power_kw))]
  · rw [if_neg (not_lt.mpr hc)]
    have := key (nodes.mergeSort (fun a b => socOr a.soc 100 ≤ socOr b.soc 100))
      (List.mergeSort_perm nodes _)
    linarith [this]

/-- Claim C7 (amended): conservation holds for the proportional strategy
exactly — the setpoints sum to `total_kW` whenever the online rated
powers sum non-zero — and for the priority strategy within the 0.1 kW
tolerance whenever the online nodes' nonnegative rated powers cover
`|total_kW|` (no clamp saturation), since the greedy
`min(|remaining|, rated)` loop then drives the remainder below 0.1 kW.
The balanced strategy violates conservation whenever some SOC deviates
from the mean — see the counterexample — and on saturation the priority
strategy silently drops the residual; no strategy reports it. -/
theorem C7_dispatch_conservation (total_power_kw : ℚ) (nodes : List Node)
    (hcap : (nodes.map (fun n => n.capacity.rated_power_kw)).sum ≠ 0)
    (hrated : ∀ n ∈ nodes, 0 ≤ n.capacity.rated_power_kw)
    (htot : |total_power_kw| ≤
      (nodes.map (fun n => n.capacity.rated_power_kw)).sum) :
    ((proportional_dispatch total_power_kw nodes).map Prod.snd).sum =
        total_power_kw ∧
      |((proportional_dispatch total_power_kw nodes).map Prod.snd).sum -
        total_power_kw| ≤ 1/10 ∧
      |((priority_dispatch total_power_kw nodes).map Prod.snd).sum -
        total_power_kw| ≤ 1/10 := by
  have hp := proportional_dispatch_sum total_power_kw nodes hcap
  exact ⟨hp, by rw [hp]; norm_num,
    priority_dispatch_conserves total_power_kw nodes hrated htot⟩

/-- The specification's scenario S2: three online nodes rated 100, 200,
100 kW. -/
def s2_nodes : List Node :=
  [mkOnlineNode "n1" 100 Option.none, mkOnlineNode "n2" 200 Option.none,
   mkOnlineNode "n3" 100 Option.none]

/-- Witness for C7 (amended) on scenario S2: rated 100/200/100,
`total_kW = -80`. -/
theorem C7_dispatch_conservation_witness :
    (s2_nodes.map (fun n => n.capacity.rated_power_kw)).sum ≠ 0 ∧
      |(-80 : ℚ)| ≤ (s2_nodes.map (fun n => n.capacity.rated_power_kw)).sum ∧
      ((proportional_dispatch (-80) s2_nodes).map Prod.snd).sum = -80 ∧
      |((priority_dispatch (-80) s2_nodes).map Prod.snd).sum - (-80)| ≤
        1/10 :=
  ⟨by norm_num [s2_nodes, mkOnlineNode],
   by norm_num [s2_nodes, mkOnlineNode],
   (C7_dispatch_conservation (-80) s2_nodes
     (by norm_num [s2_nodes, mkOnlineNode])
     (by
       intro n hn
       rcases hn with _ | ⟨_, _ | ⟨_, _ | ⟨_, h⟩⟩⟩ <;>
         norm_num [mkOnlineNode]
       cases h)
     (by norm_num [s2_nodes, mkOnlineNode])).1,
   (C7_dispatch_conservation (-80) s2_nodes
     (by norm_num [s2_nodes, mkOnlineNode])
     (by
       intro n hn
       rcases hn with _ | ⟨_, _ | ⟨_, _ | ⟨_, h⟩⟩⟩ <;>
         norm_num [mkOnlineNode]
       cases h)
     (by norm_num [s2_nodes, mkOnlineNode])).2.2⟩

/-- Claim C8 is a code bug: on scenario S3 (`total_kW = -30`, SOC
90/60/30, mean 60, discharge weights 30/0/0) the claim and the
specification expect `{-30, 0, 0}`, but `_balanced_dispatch` normalizes
by the total *absolute* deviation (60) instead of the summed positive
weights (30), returning `{-15, 0, 0}` — half the requested power, for
every such input. -/
theorem C8_balanced_normalization_bug :
    balanced_dispatch (-30) s3_nodes =
        [("A", -15), ("B", 0), ("C", 0)] ∧
      ((balanced_dispatch (-30) s3_nodes).map Prod.snd).sum = (-30) / 2 ∧
      ¬ ((-15 : ℚ) = -30) := by
  refine ⟨?_, ?_, ?_⟩ <;>
    norm_num [balanced_dispatch, s3_nodes, mkOnlineNode, socOr]

/-- The manual-dispatch behaviour exactly as the specification words it
(kept for comparison against the code's `dispatch_power`): clamp each
operator entry to `±rated_i` of its node, and reject with an error when
the summed magnitudes exceed the summed rated power of the online
nodes. -/
def claimed_manual_dispatch (nodes : List Node)
    (m : List (String × ℚ)) : Except String (List (String × ℚ)) :=
  let online_nodes := nodes.filter (fun n => n.status = NodeStatus.online)
  if (m.map (fun p => |p.2|)).sum >
      (online_nodes.map (fun n => n.capacity.rated_power_kw)).sum then
    Except.error "manual setpoints exceed online rated capacity"
  else
    Except.ok (m.map (fun p =>
      let rated := ((online_nodes.find? (fun n => n.node_id = p.1)).map
        (fun n => n.capacity.rated_power_kw)).getD 0
      (p.1, max (-rated) (min rated p.2))))

/-- A single online 100 kW node for the manual-dispatch
counterexample. -/
def c9_nodes : List Node := [mkOnlineNode "A" 100 Option.none]

/-- Counterexample to C9: the code forwards an operator map verbatim.
With one online node rated 100 kW and the manual map `A ↦ 1000 kW`,
`dispatch_power` returns the map unchanged — the entry is not clamped to
`±100` and the dispatch is not rejected even though `Σ|setpoints| =
1000` exceeds `Σ rated = 100`; the specification's wording would have
rejected it. -/
theorem C9_counterexample :
    dispatch_power c9_nodes 0 "proportional" (some [("A", 1000)]) =
        Except.ok [("A", 1000)] ∧
      claimed_manual_dispatch c9_nodes [("A", 1000)] =
        Except.error "manual setpoints exceed online rated capacity" ∧
      ¬ (|(1000 : ℚ)| ≤ 100) := by
  refine ⟨?_, ?_, ?_⟩ <;>
    norm_num [dispatch_power, claimed_manual_dispatch, c9_nodes,
      mkOnlineNode, List.filter, List.find?]

/-- Claim C9 (amended): a non-empty manual setpoint map is used
verbatim — `dispatch_power` returns it unchanged for every strategy and
total, with no per-node clamping and no rejection on any magnitude. -/
theorem C9_manual_verbatim (nodes : List Node) (total_power_kw : ℚ)
    (strategy : String) (m : List (String × ℚ))
    (hon : nodes.filter (fun n => n.status = NodeStatus.online) ≠ [])
    (hm : m ≠ []) :
    dispatch_power nodes total_power_kw strategy (some m) = Except.ok m := by
  simp [dispatch_power, hon, hm]

/-- Witness for C9 (amended) at the single-node campus and the 1000 kW
manual entry. -/
theorem C9_manual_verbatim_witness :
    c9_nodes.filter (fun n => n.status = NodeStatus.online) ≠ [] ∧
      ([("A", (1000 : ℚ))] ≠ []) ∧
      dispatch_power c9_nodes 0 "proportional" (some [("A", 1000)]) =
        Except.ok [("A", 1000)] :=
  ⟨by simp [c9_nodes, mkOnlineNode, List.filter], by simp,
   C9_manual_verbatim c9_nodes 0 "proportional" [("A", 1000)]
     (by simp [c9_nodes, mkOnlineNode, List.filter]) (by simp)⟩

end VPP
